import Mathlib

/-!
Verification model of the mediclaim claim-review workflow.

The definitions below are a shallow embedding of the workflow core of the
repository: the enum constants and row types of `app/models/models.py`, and
the request handlers of `app/routes/reviews.py`, `app/routes/payments.py`
and `app/routes/claims.py` that drive the claim lifecycle.

Modelling conventions, applied uniformly:

* The source stores every enum as a plain string (the enum classes in
  `models.py` are bare classes of string constants), so statuses, roles,
  review types and decisions are `String` here, with the constants
  reproduced below.
* Monetary amounts (`float` columns) are modelled as `ℚ`.
* `id` columns are modelled as `Nat`.  Foreign-key columns are nullable in
  the schema but every handler that creates a row sets them, and no claim
  under verification concerns NULL foreign keys, so they are modelled as
  plain `Nat`.  `User.role` is likewise modelled as `String`.
* Timestamp and date columns play no role in any verified property and are
  omitted from the row types.
* `app/db/session.py` (`get_db`) and `app/core/deps.py` are not present in
  the sources.  Modelled from the spec: the persistence collaborator is
  transactional (spec section 6), and a per-request session persists its
  pending mutations only when the handler awaits `db.commit()`; a session
  discarded without a commit leaves the persisted state as it was.  Each
  handler below therefore returns the *persisted* database (and, where a
  claim depends on it, also the in-session state at handler exit).
* `scalar_one_or_none` is modelled as `List.find?` on the table.
* Notification and audit dispatch are external collaborators (spec
  sections 2 and 6) and have no effect on the modelled state; lookups the
  source performs to build a notification are kept, because a missing row
  changes the handler outcome (404 or an unhandled exception).
-/

namespace Mediclaim

namespace ClaimStatus

@[simp] def SUBMITTED : String := "SUBMITTED"

@[simp] def UNDER_REVIEW_CS : String := "UNDER_REVIEW_CS"

@[simp] def UNDER_REVIEW_CLAIMS : String := "UNDER_REVIEW_CLAIMS"

@[simp] def PENDING_MD_APPROVAL : String := "PENDING_MD_APPROVAL"

@[simp] def APPROVED : String := "APPROVED"

@[simp] def PARTIALLY_APPROVED : String := "PARTIALLY_APPROVED"

@[simp] def REJECTED : String := "REJECTED"

@[simp] def PENDING_PAYMENT : String := "PENDING_PAYMENT"

@[simp] def PAID : String := "PAID"

end ClaimStatus

namespace ReviewType

@[simp] def CUSTOMER_SERVICE : String := "CUSTOMER_SERVICE"

@[simp] def CLAIMS : String := "CLAIMS"

@[simp] def MD : String := "MD"

end ReviewType

namespace ReviewDecision

@[simp] def APPROVED : String := "APPROVED"

@[simp] def PARTIALLY_APPROVED : String := "PARTIALLY_APPROVED"

@[simp] def REJECTED : String := "REJECTED"

@[simp] def NEEDS_MORE_INFO : String := "NEEDS_MORE_INFO"

end ReviewDecision

namespace ReviewItemStatus

@[simp] def APPROVED : String := "APPROVED"

@[simp] def REJECTED : String := "REJECTED"

end ReviewItemStatus

namespace PaymentStatus

@[simp] def SCHEDULED : String := "SCHEDULED"

@[simp] def PROCESSED : String := "PROCESSED"

@[simp] def FAILED : String := "FAILED"

end PaymentStatus

namespace UserRole

@[simp] def POLICYHOLDER : String := "POLICYHOLDER"

@[simp] def HR : String := "HR"

@[simp] def CUSTOMER_SERVICE : String := "CUSTOMER_SERVICE"

@[simp] def CLAIMS : String := "CLAIMS"

@[simp] def MD : String := "MD"

@[simp] def FINANCE : String := "FINANCE"

@[simp] def ADMIN : String := "ADMIN"

@[simp] def USER : String := "USER"

end UserRole

/-- The member names of `ClaimStatus` (what
`[s for s in dir(ClaimStatus) if not s.startswith("__")]` evaluates to in
`update_claim_status`; for this class the attribute names coincide with the
stored string values). -/
def claimStatusNames : List String :=
  [ClaimStatus.APPROVED, ClaimStatus.PAID, ClaimStatus.PARTIALLY_APPROVED,
   ClaimStatus.PENDING_MD_APPROVAL, ClaimStatus.PENDING_PAYMENT,
   ClaimStatus.REJECTED, ClaimStatus.SUBMITTED, ClaimStatus.UNDER_REVIEW_CLAIMS,
   ClaimStatus.UNDER_REVIEW_CS]

/-- Row of the `users` table (business fields only). -/
structure UserRec where
  id : Nat
  role : String
  full_name : String
  is_active : Bool
deriving DecidableEq, Repr

/-- Row of the `policies` table. -/
structure Policy where
  id : Nat
  member_number : String
  policyholder_id : Nat
  employer_id : Nat
deriving DecidableEq, Repr

/-- Row of the `claims` table. -/
structure Claim where
  id : Nat
  reference_number : String
  policy_id : Nat
  hospital_pharmacy : String
  reason : String
  requested_amount : ℚ
  approved_amount : Option ℚ
  status : String
deriving DecidableEq, Repr

/-- Row of the `reviews` table. -/
structure Review where
  id : Nat
  claim_id : Nat
  reviewer_id : Nat
  review_type : String
  comments : String
  decision : String
  rejection_reason : Option String
deriving DecidableEq, Repr

/-- Row of the `review_items` table. -/
structure ReviewItem where
  id : Nat
  review_id : Nat
  item_name : String
  requested_amount : ℚ
  approved_amount : ℚ
  status : String
  rejection_reason : Option String
deriving DecidableEq, Repr

/-- Row of the `payments` table. -/
structure Payment where
  id : Nat
  claim_id : Nat
  invoice_number : String
  payment_amount : ℚ
  payment_status : String
  processed_by_id : Nat
deriving DecidableEq, Repr

/-- The relational state the workflow core reads and writes. -/
structure DB where
  users : List UserRec
  policies : List Policy
  claims : List Claim
  reviews : List Review
  reviewItems : List ReviewItem
  payments : List Payment
deriving DecidableEq, Repr

def find_user (db : DB) (uid : Nat) : Option UserRec :=
  db.users.find? (fun u => u.id == uid)

def find_policy (db : DB) (pid : Nat) : Option Policy :=
  db.policies.find? (fun p => p.id == pid)

def find_claim (db : DB) (cid : Nat) : Option Claim :=
  db.claims.find? (fun c => c.id == cid)

def find_review (db : DB) (rid : Nat) : Option Review :=
  db.reviews.find? (fun r => r.id == rid)

def find_payment (db : DB) (pid : Nat) : Option Payment :=
  db.payments.find? (fun p => p.id == pid)

/-- `claim.status = s` on the row with the given id (the UPDATE the ORM
emits for a mutated `Claim` object). -/
def set_claim_status (db : DB) (cid : Nat) (s : String) : DB :=
  { db with claims := db.claims.map (fun c => if c.id == cid then { c with status := s } else c) }

/-- `claim.approved_amount = v` on the row with the given id. -/
def set_claim_approved (db : DB) (cid : Nat) (v : Option ℚ) : DB :=
  { db with claims := db.claims.map (fun c => if c.id == cid then { c with approved_amount := v } else c) }

/-- The status of the claim with the given id, if it exists. -/
def claim_status (db : DB) (cid : Nat) : Option String :=
  (find_claim db cid).map (fun c => c.status)

/-- The approved amount of the claim with the given id, if it exists. -/
def claim_approved (db : DB) (cid : Nat) : Option (Option ℚ) :=
  (find_claim db cid).map (fun c => c.approved_amount)

/-- Python truthiness of an `Optional[str]` form value (`if s:`): `None`
and the empty string are falsy. -/
def truthy : Option String → Bool
  | none => false
  | some s => s != ""

/-- The role gate of `create_review` (`app/routes/reviews.py` lines
133-136), transcribed verbatim. -/
def review_permission_denied (role review_type : String) : Bool :=
  (role == UserRole.CUSTOMER_SERVICE && review_type != ReviewType.CUSTOMER_SERVICE) ||
  (role == UserRole.CLAIMS && review_type != ReviewType.CLAIMS) ||
  (role == UserRole.MD && review_type != ReviewType.MD) ||
  [UserRole.POLICYHOLDER, UserRole.HR, UserRole.FINANCE].contains role

/-- Outcome of `create_review`.  `fellThrough` is the handler running off
the end of the function body and returning Python `None`. -/
inductive CreateReviewResult where
  | created (review_id claim_id : Nat) (review_type decision : String)
  | fellThrough
  | httpError (code : Nat) (detail : String)
deriving DecidableEq, Repr

/-- State and response of one `create_review` request: the persisted
database, the in-memory session state at handler exit, and the response. -/
structure ReviewOutcome where
  committed : DB
  session : DB
  resp : CreateReviewResult
deriving DecidableEq, Repr

/-- `POST /claims/{claim_id}/reviews` (`create_review`,
`app/routes/reviews.py` lines 93-179).

Transcribed faithfully, including the control flow around the commit: the
`await db.commit()` / `return {...}` statements are indented inside the
`elif review_type == ReviewType.CLAIMS:` branch, so only a CLAIMS review
commits and returns a payload; the CUSTOMER_SERVICE branch assigns the new
claim status on the session object but never commits, and the MD branch
does neither.  `new_review_id` stands for the generated primary key. -/
def create_review (db : DB) (current_user : UserRec) (claim_id : Nat)
    (review_type comments decision : String) (rejection_reason : Option String)
    (new_review_id : Nat) : ReviewOutcome :=
  match find_claim db claim_id with
  | none => ⟨db, db, .httpError 404 "Claim not found"⟩
  | some _ =>
    if !([ReviewType.CUSTOMER_SERVICE, ReviewType.CLAIMS, ReviewType.MD].contains review_type) then
      ⟨db, db, .httpError 400 "Invalid review type"⟩
    else if !([ReviewDecision.APPROVED, ReviewDecision.PARTIALLY_APPROVED,
               ReviewDecision.REJECTED, ReviewDecision.NEEDS_MORE_INFO].contains decision) then
      ⟨db, db, .httpError 400 "Invalid decision"⟩
    else if review_permission_denied current_user.role review_type then
      ⟨db, db, .httpError 403 "Not enough permissions"⟩
    else
      let review : Review :=
        { id := new_review_id, claim_id := claim_id, reviewer_id := current_user.id,
          review_type := review_type, comments := comments, decision := decision,
          rejection_reason := rejection_reason }
      let session0 : DB := { db with reviews := db.reviews ++ [review] }
      if review_type == ReviewType.CUSTOMER_SERVICE then
        let session1 : DB :=
          if [ReviewDecision.APPROVED, ReviewDecision.PARTIALLY_APPROVED].contains decision then
            set_claim_status session0 claim_id ClaimStatus.UNDER_REVIEW_CLAIMS
          else if decision == ReviewDecision.REJECTED then
            set_claim_status session0 claim_id ClaimStatus.REJECTED
          else session0
        ⟨db, session1, .fellThrough⟩
      else if review_type == ReviewType.CLAIMS then
        let session1 : DB :=
          if [ReviewDecision.APPROVED, ReviewDecision.PARTIALLY_APPROVED].contains decision then
            set_claim_status session0 claim_id ClaimStatus.PENDING_MD_APPROVAL
          else if decision == ReviewDecision.REJECTED then
            set_claim_status session0 claim_id ClaimStatus.REJECTED
          else session0
        ⟨session1, session1, .created new_review_id claim_id review_type decision⟩
      else
        ⟨db, session0, .fellThrough⟩

/-- Outcome of a review-item creation or update. -/
inductive ItemResult where
  | ok (item_id : Nat) (approved_amount : ℚ) (item_status : String)
  | httpError (code : Nat) (detail : String)
deriving DecidableEq, Repr

/-- `POST /{review_id}/items` (`add_review_item`, `app/routes/reviews.py`
lines 310-368).  The item is committed, then the claim's approved amount is
recomputed as the sum of `approved_amount` over the items of *this* review
(the `ReviewItem.review_id == review_id` query) and committed.
`new_item_id` stands for the generated primary key. -/
def add_review_item (db : DB) (review_id : Nat) (item_name : String)
    (requested_amount approved_amount : ℚ) (item_status : String)
    (rejection_reason : Option String) (new_item_id : Nat) : DB × ItemResult :=
  match find_review db review_id with
  | none => (db, .httpError 404 "Review not found")
  | some review =>
    if !([ReviewItemStatus.APPROVED, ReviewItemStatus.REJECTED].contains item_status) then
      (db, .httpError 400 "Invalid status")
    else
      let item : ReviewItem :=
        { id := new_item_id, review_id := review_id, item_name := item_name,
          requested_amount := requested_amount, approved_amount := approved_amount,
          status := item_status, rejection_reason := rejection_reason }
      let db1 : DB := { db with reviewItems := db.reviewItems ++ [item] }
      match find_claim db1 review.claim_id with
      | none => (db1, .ok new_item_id approved_amount item_status)
      | some _ =>
        let total : ℚ :=
          ((db1.reviewItems.filter (fun it => it.review_id == review_id)).map
            (fun it => it.approved_amount)).sum
        let db2 : DB := set_claim_approved db1 review.claim_id (some total)
        (db2, .ok new_item_id approved_amount item_status)

/-- `PUT /{review_id}/items/{item_id}` (`update_review_item`,
`app/routes/reviews.py` lines 370-444).  Optional form fields are applied
when not `None`; the claim's approved amount is then recomputed over the
items of this review, skipping falsy (`None` or zero) amounts (the
`sum(amount for amount in approved_items if amount)` line — skipping zeros
does not change the sum). -/
def update_review_item (db : DB) (review_id item_id : Nat)
    (item_name : Option String) (requested_amount approved_amount : Option ℚ)
    (item_status : Option String) (rejection_reason : Option String) : DB × ItemResult :=
  match find_review db review_id with
  | none => (db, .httpError 404 "Review not found")
  | some review =>
    match db.reviewItems.find? (fun it => it.id == item_id && it.review_id == review_id) with
    | none => (db, .httpError 404 "Review item not found")
    | some item0 =>
      if truthy item_status &&
         !([ReviewItemStatus.APPROVED, ReviewItemStatus.REJECTED].contains (item_status.getD "")) then
        (db, .httpError 400 "Invalid status")
      else
        let item1 : ReviewItem :=
          { item0 with
            item_name := item_name.getD item0.item_name,
            requested_amount := requested_amount.getD item0.requested_amount,
            approved_amount := approved_amount.getD item0.approved_amount,
            status := item_status.getD item0.status,
            rejection_reason := rejection_reason.orElse (fun _ => item0.rejection_reason) }
        let items1 : List ReviewItem :=
          db.reviewItems.map
            (fun it => if it.id == item_id && it.review_id == review_id then item1 else it)
        let db1 : DB := { db with reviewItems := items1 }
        match find_claim db1 review.claim_id with
        | none => (db1, .ok item_id item1.approved_amount item1.status)
        | some _ =>
          let total : ℚ :=
            (((db1.reviewItems.filter (fun it => it.review_id == review_id)).map
              (fun it => it.approved_amount)).filter (fun a => a != 0)).sum
          let db2 : DB := set_claim_approved db1 review.claim_id (some total)
          (db2, .ok item_id item1.approved_amount item1.status)

/-- Outcome of `update_review`. -/
inductive UpdateReviewResult where
  | updated (review_id claim_id : Nat) (review_type decision : String)
  | httpError (code : Nat) (detail : String)
deriving DecidableEq, Repr

/-- `PUT /{review_id}` (`update_review`, `app/routes/reviews.py` lines
257-307).  Applies the optional `comments` / `decision` /
`rejection_reason` fields to the review and commits; the owning claim is
never read or written. -/
def update_review (db : DB) (review_id : Nat)
    (comments decision rejection_reason : Option String) : DB × UpdateReviewResult :=
  match find_review db review_id with
  | none => (db, .httpError 404 "Review not found")
  | some review0 =>
    if truthy decision &&
       !([ReviewDecision.APPROVED, ReviewDecision.PARTIALLY_APPROVED,
          ReviewDecision.REJECTED, ReviewDecision.NEEDS_MORE_INFO].contains (decision.getD "")) then
      (db, .httpError 400 "Invalid decision")
    else
      let review1 : Review :=
        { review0 with
          comments := comments.getD review0.comments,
          decision := decision.getD review0.decision,
          rejection_reason := rejection_reason.orElse (fun _ => review0.rejection_reason) }
      let reviews1 : List Review :=
        db.reviews.map (fun r => if r.id == review_id then review1 else r)
      let db1 : DB := { db with reviews := reviews1 }
      (db1, .updated review_id review0.claim_id review0.review_type review1.decision)

/-- Outcome of `create_payment`. -/
inductive PaymentResult where
  | scheduled (payment_id claim_id : Nat)
  | httpError (code : Nat) (detail : String)
deriving DecidableEq, Repr

/-- `POST /claims/{claim_id}/payments` (`create_payment`,
`app/routes/payments.py` lines 79-156).  The status precondition is
checked before any write; on success the payment row and the claim's move
to PENDING_PAYMENT are committed; the policy/policyholder lookups that
feed the notification happen after those commits, so their 404s do not
undo the writes.  `new_payment_id` stands for the generated primary key. -/
def create_payment (db : DB) (current_user : UserRec) (claim_id : Nat)
    (invoice_number : String) (payment_amount : ℚ) (new_payment_id : Nat) :
    DB × PaymentResult :=
  match find_claim db claim_id with
  | none => (db, .httpError 404 "Claim not found")
  | some claim =>
    if !([ClaimStatus.APPROVED, ClaimStatus.PARTIALLY_APPROVED].contains claim.status) then
      (db, .httpError 400 "Claim must be approved or partially approved to create payment")
    else
      let payment : Payment :=
        { id := new_payment_id, claim_id := claim_id, invoice_number := invoice_number,
          payment_amount := payment_amount, payment_status := PaymentStatus.SCHEDULED,
          processed_by_id := current_user.id }
      let db1 : DB := { db with payments := db.payments ++ [payment] }
      let db2 : DB := set_claim_status db1 claim_id ClaimStatus.PENDING_PAYMENT
      match find_policy db2 claim.policy_id with
      | none => (db2, .httpError 404 "Policy not found.")
      | some policy =>
        match find_user db2 policy.policyholder_id with
        | none => (db2, .httpError 404 "Policyholder not found.")
        | some _ => (db2, .scheduled new_payment_id claim_id)

/-- Outcome of `update_payment`.  `serverError` is an unhandled exception
escaping the handler (dereferencing a `None` policy or policyholder while
building the notification). -/
inductive UpdatePaymentResult where
  | updated (payment_id : Nat) (payment_status : String)
  | httpError (code : Nat) (detail : String)
  | serverError (detail : String)
deriving DecidableEq, Repr

/-- `PUT /{payment_id}` (`update_payment`, `app/routes/payments.py` lines
249-337).  Optional fields: `invoice_number` and `payment_status` are
applied under Python truthiness, `payment_amount` under `is not None`; the
field updates are committed, and when the new status is PROCESSED the
owning claim is moved to PAID and committed before the notification
lookups run. -/
def update_payment (db : DB) (current_user : UserRec) (payment_id : Nat)
    (invoice_number : Option String) (payment_amount : Option ℚ)
    (payment_status : Option String) : DB × UpdatePaymentResult :=
  if current_user.role != UserRole.FINANCE then
    (db, .httpError 403 "Not enough permissions")
  else
    match find_payment db payment_id with
    | none => (db, .httpError 404 "Payment not found")
    | some payment0 =>
      if truthy payment_status &&
         !([PaymentStatus.SCHEDULED, PaymentStatus.PROCESSED, PaymentStatus.FAILED].contains
            (payment_status.getD "")) then
        (db, .httpError 400 "Invalid payment status")
      else
        let payment1 : Payment :=
          { payment0 with
            invoice_number := if truthy invoice_number then invoice_number.getD payment0.invoice_number
                              else payment0.invoice_number,
            payment_amount := payment_amount.getD payment0.payment_amount,
            payment_status := if truthy payment_status then payment_status.getD payment0.payment_status
                              else payment0.payment_status }
        let payments1 : List Payment :=
          db.payments.map (fun p => if p.id == payment_id then payment1 else p)
        let db1 : DB := { db with payments := payments1 }
        if truthy payment_status then
          match find_claim db1 payment0.claim_id with
          | none => (db1, .httpError 404 "Claim not found")
          | some claim =>
            if payment_status.getD "" == PaymentStatus.PROCESSED then
              let db2 : DB := set_claim_status db1 payment0.claim_id ClaimStatus.PAID
              match find_policy db2 claim.policy_id with
              | none => (db2, .serverError "AttributeError: NoneType has no attribute policyholder_id")
              | some policy =>
                match find_user db2 policy.policyholder_id with
                | none => (db2, .serverError "AttributeError: NoneType has no attribute email")
                | some _ => (db2, .updated payment_id payment1.payment_status)
            else (db1, .updated payment_id payment1.payment_status)
        else (db1, .updated payment_id payment1.payment_status)

/-- Outcome of `update_claim_status`.  The handler reports lookup failures
as plain `{"detail": ...}` dicts with HTTP 200 rather than raising. -/
inductive StatusUpdateResult where
  | updated (claim_id : Nat) (claim_status : String)
  | detailMsg (detail : String)
  | serverError (detail : String)
deriving DecidableEq, Repr

/-- Persisted state, session state and response of one
`update_claim_status` request. -/
structure StatusUpdateOutcome where
  committed : DB
  session : DB
  resp : StatusUpdateResult
deriving DecidableEq, Repr

/-- `PUT /{claim_id}/status` (`update_claim_status`,
`app/routes/claims.py` lines 283-334).  The handler assigns
`claim.status = status` on the session but its `db.commit()` is *not*
awaited (the coroutine is created and discarded), so no commit runs and
the persisted status is unchanged.  A missing policy hits
`raise {"detail": ...}` (a TypeError), and a missing policyholder is
dereferenced inside the notification call; both escape as server errors. -/
def update_claim_status (db : DB) (claim_id : Nat) (new_status : String) :
    StatusUpdateOutcome :=
  if !(claimStatusNames.contains new_status) then
    ⟨db, db, .detailMsg "Invalid status"⟩
  else
    match find_claim db claim_id with
    | none => ⟨db, db, .detailMsg "Claim not found"⟩
    | some claim =>
      let session : DB := set_claim_status db claim_id new_status
      match find_policy session claim.policy_id with
      | none => ⟨db, session, .serverError "TypeError: exceptions must derive from BaseException"⟩
      | some policy =>
        match find_user session policy.policyholder_id with
        | none => ⟨db, session, .serverError "AttributeError: NoneType has no attribute email"⟩
        | some _ => ⟨db, session, .updated claim_id new_status⟩

/-- `GET /claims` (`get_claims`, `app/routes/claims.py` lines 26-62).  The
handler takes no notice of the requesting principal: it depends only on the
bearer token being valid, never loads `current_user`, and applies no
role or ownership filtering (despite its docstring), so every
authenticated caller receives the same rows. -/
def get_claims (db : DB) (status_filter : Option String) (skip limit : Nat) : List Claim :=
  let q := db.claims
  let q := if truthy status_filter then q.filter (fun c => c.status == status_filter.getD "") else q
  (q.drop skip).take limit

/-! Auxiliary lemmas about row lookup and keyed row updates. -/

/-- Looking a key up in a list in which the rows matching key `k` were
rewritten by a key-preserving `f`: the lookup of `k` itself sees the
rewritten row, every other lookup is unchanged. -/
theorem find_update_by_key {α : Type} (key : α → Nat) (l : List α) (k t : Nat) (f : α → α)
    (hf : ∀ a, key a = k → key (f a) = key a) :
    ((l.map (fun a => if key a == k then f a else a)).find? (fun a => key a == t)) =
      (if k = t then (l.find? (fun a => key a == t)).map f
       else l.find? (fun a => key a == t)) := by
  rw [List.find?_map]
  have hpg : ((fun a => key a == t) ∘ fun a => if key a == k then f a else a)
      = (fun a => key a == t) := by
    funext x
    by_cases h : key x = k
    · simp [Function.comp, h, hf x h]
    · simp [Function.comp, h]
  rw [hpg]
  cases hfind : l.find? (fun a => key a == t) with
  | none => split <;> rfl
  | some b =>
    have hbt : key b = t := by simpa using List.find?_some hfind
    by_cases hkt : k = t
    · subst hkt
      simp [hbt]
    · have hbk : (key b == k) = false := by
        simp only [beq_eq_false_iff_ne, ne_eq, hbt]
        exact fun h => hkt h.symm
      rw [if_neg hkt]
      simp [hbk]
      intro h
      exact absurd h (by simpa using hbk)

theorem claim_status_set_status (db : DB) (cid tid : Nat) (s : String) :
    claim_status (set_claim_status db cid s) tid =
      (if cid = tid then (claim_status db tid).map (fun _ => s) else claim_status db tid) := by
  simp only [claim_status, find_claim, set_claim_status]
  rw [show (fun c : Claim => if c.id == cid then { c with status := s } else c)
        = (fun c : Claim => if (fun x : Claim => x.id) c == cid then
            (fun x : Claim => { x with status := s }) c else c) from rfl]
  rw [find_update_by_key (fun x : Claim => x.id) db.claims cid tid
        (fun x : Claim => { x with status := s }) (fun _ _ => rfl)]
  split
  · cases db.claims.find? (fun c => c.id == tid) <;> rfl
  · rfl

theorem claim_approved_set_status (db : DB) (cid tid : Nat) (s : String) :
    claim_approved (set_claim_status db cid s) tid = claim_approved db tid := by
  simp only [claim_approved, find_claim, set_claim_status]
  rw [show (fun c : Claim => if c.id == cid then { c with status := s } else c)
        = (fun c : Claim => if (fun x : Claim => x.id) c == cid then
            (fun x : Claim => { x with status := s }) c else c) from rfl]
  rw [find_update_by_key (fun x : Claim => x.id) db.claims cid tid
        (fun x : Claim => { x with status := s }) (fun _ _ => rfl)]
  split
  · cases db.claims.find? (fun c => c.id == tid) <;> rfl
  · rfl

theorem claim_status_set_approved (db : DB) (cid tid : Nat) (v : Option ℚ) :
    claim_status (set_claim_approved db cid v) tid = claim_status db tid := by
  simp only [claim_status, find_claim, set_claim_approved]
  rw [show (fun c : Claim => if c.id == cid then { c with approved_amount := v } else c)
        = (fun c : Claim => if (fun x : Claim => x.id) c == cid then
            (fun x : Claim => { x with approved_amount := v }) c else c) from rfl]
  rw [find_update_by_key (fun x : Claim => x.id) db.claims cid tid
        (fun x : Claim => { x with approved_amount := v }) (fun _ _ => rfl)]
  split
  · cases db.claims.find? (fun c => c.id == tid) <;> rfl
  · rfl

theorem claim_approved_set_approved (db : DB) (cid tid : Nat) (v : Option ℚ) :
    claim_approved (set_claim_approved db cid v) tid =
      (if cid = tid then (claim_approved db tid).map (fun _ => v) else claim_approved db tid) := by
  simp only [claim_approved, find_claim, set_claim_approved]
  rw [show (fun c : Claim => if c.id == cid then { c with approved_amount := v } else c)
        = (fun c : Claim => if (fun x : Claim => x.id) c == cid then
            (fun x : Claim => { x with approved_amount := v }) c else c) from rfl]
  rw [find_update_by_key (fun x : Claim => x.id) db.claims cid tid
        (fun x : Claim => { x with approved_amount := v }) (fun _ _ => rfl)]
  split
  · cases db.claims.find? (fun c => c.id == tid) <;> rfl
  · rfl

/-- Skipping falsy amounts (`if amount`) in a sum of rationals does not
change the sum: the skipped entries are exactly the zeros. -/
theorem sum_filter_ne_zero (l : List ℚ) : (l.filter (fun a => a != 0)).sum = l.sum := by
  induction l with
  | nil => rfl
  | cons a l ih =>
    by_cases h : a = 0
    · subst h
      simp [List.filter, ih]
    · have : (a != 0) = true := by simp [h]
      simp [List.filter, this, ih]

/-! Concrete fixture for claim C1. -/

def claimC1 : Claim :=
  { id := 1, reference_number := "CLM-A1", policy_id := 10, hospital_pharmacy := "H",
    reason := "r", requested_amount := 1000, approved_amount := none,
    status := ClaimStatus.SUBMITTED }

def dbC1 : DB :=
  { users := [], policies := [], claims := [claimC1], reviews := [], reviewItems := [],
    payments := [] }

def csUserC1 : UserRec :=
  { id := 10, role := UserRole.CUSTOMER_SERVICE, full_name := "cs", is_active := true }

/-- C1 counterexample: a CUSTOMER_SERVICE review with decision APPROVED on
an existing SUBMITTED claim does *not* persist status UNDER_REVIEW_CLAIMS:
the handler's commit sits inside the CLAIMS branch only, so the persisted
status is still SUBMITTED. -/
theorem C1_counterexample :
    claim_status (create_review dbC1 csUserC1 1 ReviewType.CUSTOMER_SERVICE "ok"
        ReviewDecision.APPROVED none 100).committed 1 ≠ some ClaimStatus.UNDER_REVIEW_CLAIMS
    ∧ claim_status (create_review dbC1 csUserC1 1 ReviewType.CUSTOMER_SERVICE "ok"
        ReviewDecision.APPROVED none 100).committed 1 = some ClaimStatus.SUBMITTED := by
  decide

/-- C1 (amended): for every existing claim, a CLAIMS review with decision
APPROVED or PARTIALLY_APPROVED persists claim status PENDING_MD_APPROVAL,
and with decision REJECTED persists REJECTED; a CUSTOMER_SERVICE review
with APPROVED or PARTIALLY_APPROVED (resp. REJECTED) sets the in-session
status to UNDER_REVIEW_CLAIMS (resp. REJECTED) but the handler performs no
commit for that branch, so the persisted status is unchanged. -/
theorem C1_amended (db : DB) (u v : UserRec) (cid rid : Nat) (comments : String)
    (rr : Option String) (c : Claim)
    (hc : find_claim db cid = some c)
    (hu : u.role = UserRole.CLAIMS) (hv : v.role = UserRole.CUSTOMER_SERVICE) :
    (claim_status (create_review db u cid ReviewType.CLAIMS comments
        ReviewDecision.APPROVED rr rid).committed cid = some ClaimStatus.PENDING_MD_APPROVAL)
    ∧ (claim_status (create_review db u cid ReviewType.CLAIMS comments
        ReviewDecision.PARTIALLY_APPROVED rr rid).committed cid = some ClaimStatus.PENDING_MD_APPROVAL)
    ∧ (claim_status (create_review db u cid ReviewType.CLAIMS comments
        ReviewDecision.REJECTED rr rid).committed cid = some ClaimStatus.REJECTED)
    ∧ ((create_review db v cid ReviewType.CUSTOMER_SERVICE comments
        ReviewDecision.APPROVED rr rid).committed = db)
    ∧ (claim_status (create_review db v cid ReviewType.CUSTOMER_SERVICE comments
        ReviewDecision.APPROVED rr rid).session cid = some ClaimStatus.UNDER_REVIEW_CLAIMS)
    ∧ ((create_review db v cid ReviewType.CUSTOMER_SERVICE comments
        ReviewDecision.REJECTED rr rid).committed = db)
    ∧ (claim_status (create_review db v cid ReviewType.CUSTOMER_SERVICE comments
        ReviewDecision.REJECTED rr rid).session cid = some ClaimStatus.REJECTED) := by
  have hcs : ∀ (R : List Review) (s : String),
      claim_status (set_claim_status { db with reviews := R } cid s) cid = some s := by
    intro R s
    rw [claim_status_set_status, if_pos rfl]
    have hmid : claim_status { db with reviews := R } cid = some c.status := by
      simp only [claim_status, find_claim]
      show Option.map (fun c => c.status) (db.claims.find? (fun x => x.id == cid)) = _
      rw [show db.claims.find? (fun x => x.id == cid) = some c from hc]
      rfl
    rw [hmid]
    rfl
  refine ⟨?_, ?_, ?_, ?_, ?_, ?_, ?_⟩ <;>
    simp +decide only [create_review, hc, review_permission_denied, hu, hv,
      ReviewType.CLAIMS, ReviewType.CUSTOMER_SERVICE, ReviewType.MD,
      ReviewDecision.APPROVED, ReviewDecision.PARTIALLY_APPROVED,
      ReviewDecision.REJECTED, ReviewDecision.NEEDS_MORE_INFO,
      UserRole.CUSTOMER_SERVICE, UserRole.CLAIMS, UserRole.MD,
      UserRole.POLICYHOLDER, UserRole.HR, UserRole.FINANCE,
      List.contains, List.elem, Bool.or_false, Bool.false_or, Bool.and_false,
      Bool.false_and, Bool.not_false, Bool.not_true, if_true, if_false] <;>
    first
      | rfl
      | exact hcs _ _

def claimsUserC1 : UserRec :=
  { id := 11, role := UserRole.CLAIMS, full_name := "cl", is_active := true }

/-- Witness for C1_amended at a concrete database, user pair and claim. -/
theorem C1_amended_witness :
    claim_status (create_review dbC1 claimsUserC1 1 ReviewType.CLAIMS "ok"
        ReviewDecision.APPROVED none 100).committed 1 = some ClaimStatus.PENDING_MD_APPROVAL :=
  (C1_amended dbC1 claimsUserC1 csUserC1 1 100 "ok" none claimC1 (by decide) rfl rfl).1

/-- The aggregate the code maintains: the sum of `approved_amount` over the
review items of one review. -/
def review_items_total (db : DB) (rid : Nat) : ℚ :=
  ((db.reviewItems.filter (fun it => it.review_id == rid)).map
    (fun it => it.approved_amount)).sum

/-- The aggregate claim C2 describes, written from the spec's words (spec
section 4.2): the sum of `approved_amount` over every ReviewItem belonging
to every Review of the claim. -/
def spec_claim_items_total (db : DB) (cid : Nat) : ℚ :=
  ((db.reviewItems.filter (fun it =>
      match find_review db it.review_id with
      | some r => r.claim_id == cid
      | none => false)).map (fun it => it.approved_amount)).sum

/-! Concrete fixture for claim C2: one claim with two reviews; review 1
already carries an item of 100. -/

def claimC2 : Claim :=
  { id := 1, reference_number := "CLM-A2", policy_id := 10, hospital_pharmacy := "H",
    reason := "r", requested_amount := 1000, approved_amount := some 100,
    status := ClaimStatus.PENDING_MD_APPROVAL }

def reviewC2a : Review :=
  { id := 1, claim_id := 1, reviewer_id := 11, review_type := ReviewType.CUSTOMER_SERVICE,
    comments := "c", decision := ReviewDecision.APPROVED, rejection_reason := none }

def reviewC2b : Review :=
  { id := 2, claim_id := 1, reviewer_id := 12, review_type := ReviewType.MD,
    comments := "c", decision := ReviewDecision.APPROVED, rejection_reason := none }

def itemC2 : ReviewItem :=
  { id := 1, review_id := 1, item_name := "Consultation", requested_amount := 100,
    approved_amount := 100, status := ReviewItemStatus.APPROVED, rejection_reason := none }

def dbC2 : DB :=
  { users := [], policies := [], claims := [claimC2], reviews := [reviewC2a, reviewC2b],
    reviewItems := [itemC2], payments := [] }

/-- The state after adding an item of 50 under review 2 of the fixture. -/
def dbC2' : DB := (add_review_item dbC2 2 "Lab" 50 50 ReviewItemStatus.APPROVED none 2).1

/-- C2 counterexample: after adding an item of 50 under review 2 of a claim
whose review 1 already carries an item of 100, the code stores
approved_amount = 50 (the sum over the mutated review only), while the sum
over all review items of all reviews of the claim is 150. -/
theorem C2_counterexample :
    claim_approved dbC2' 1 = some (some 50)
    ∧ spec_claim_items_total dbC2' 1 = 150
    ∧ claim_approved dbC2' 1 ≠ some (some (spec_claim_items_total dbC2' 1)) := by
  have h1 : claim_approved dbC2' 1 = some (some 50) := by
    simp +decide [dbC2', dbC2, add_review_item, claim_approved, find_review, find_claim,
      set_claim_approved, claimC2, reviewC2a, reviewC2b, itemC2, List.find?]
  have h2 : spec_claim_items_total dbC2' 1 = 150 := by
    simp +decide [dbC2', dbC2, add_review_item, spec_claim_items_total, find_review, find_claim,
      set_claim_approved, claimC2, reviewC2a, reviewC2b, itemC2, List.find?]
    norm_num
  refine ⟨h1, h2, ?_⟩
  rw [h1, h2]
  norm_num

/-- C2 (amended): after a review-item creation (or update) under review
`rid`, the owning claim's approved_amount equals the sum of
`approved_amount` over the ReviewItems of review `rid` only — not over all
reviews of the claim. -/
theorem C2_amended (db : DB) (rid iid niid : Nat) (r : Review) (c : Claim) (it0 : ReviewItem)
    (nm : String) (req app : ℚ) (rr : Option String)
    (hr : find_review db rid = some r)
    (hc : find_claim db r.claim_id = some c)
    (hitem : db.reviewItems.find? (fun it => it.id == iid && it.review_id == rid) = some it0) :
    (claim_approved (add_review_item db rid nm req app ReviewItemStatus.APPROVED rr niid).1 r.claim_id
        = some (some (review_items_total
            (add_review_item db rid nm req app ReviewItemStatus.APPROVED rr niid).1 rid)))
    ∧ (claim_approved (update_review_item db rid iid (some nm) (some req) (some app) none rr).1 r.claim_id
        = some (some (review_items_total
            (update_review_item db rid iid (some nm) (some req) (some app) none rr).1 rid))) := by
  simp only [find_claim] at hc
  constructor
  · simp +decide only [add_review_item, hr, ReviewItemStatus.APPROVED, ReviewItemStatus.REJECTED,
      List.contains, List.elem, Bool.not_true, Bool.not_false, if_true, if_false]
    simp only [find_claim]
    rw [show List.find? (fun x => x.id == r.claim_id) db.claims = some c from hc]
    rw [claim_approved_set_approved, if_pos rfl]
    have hmid : ∀ (its : List ReviewItem),
        claim_approved { db with reviewItems := its } r.claim_id = some c.approved_amount := by
      intro its
      simp only [claim_approved, find_claim]
      rw [show ({ db with reviewItems := its } : DB).claims.find? (fun x => x.id == r.claim_id)
          = some c from hc]
      rfl
    rw [hmid]
    simp only [review_items_total, Option.map_some, set_claim_approved]
    rfl
  · simp +decide only [update_review_item, hr, hitem, truthy, ReviewItemStatus.APPROVED,
      ReviewItemStatus.REJECTED, List.contains, List.elem, Bool.not_true, Bool.not_false,
      Bool.false_and, if_true, if_false]
    simp only [find_claim]
    rw [show (List.find? (fun x => x.id == r.claim_id) db.claims) = some c from hc]
    rw [claim_approved_set_approved, if_pos rfl]
    have hmid : ∀ (its : List ReviewItem),
        claim_approved { db with reviewItems := its } r.claim_id = some c.approved_amount := by
      intro its
      simp only [claim_approved, find_claim]
      rw [show ({ db with reviewItems := its } : DB).claims.find? (fun x => x.id == r.claim_id)
          = some c from hc]
      rfl
    rw [hmid]
    simp only [review_items_total, Option.map_some, sum_filter_ne_zero, set_claim_approved]
    rfl

/-- Witness for C2_amended at the concrete C2 fixture. -/
theorem C2_amended_witness :
    claim_approved (add_review_item dbC2 1 "Lab" 50 50 ReviewItemStatus.APPROVED none 2).1 1
      = some (some (review_items_total
          (add_review_item dbC2 1 "Lab" 50 50 ReviewItemStatus.APPROVED none 2).1 1)) :=
  (C2_amended dbC2 1 1 2 reviewC2a claimC2 itemC2 "Lab" 50 50 none
    (by decide) (by decide) (by decide)).1

/-! Concrete fixture for claim C3. -/

def claimC3 : Claim :=
  { id := 1, reference_number := "CLM-A3", policy_id := 10, hospital_pharmacy := "H",
    reason := "r", requested_amount := 1000, approved_amount := none,
    status := ClaimStatus.UNDER_REVIEW_CLAIMS }

def dbC3 : DB :=
  { users := [], policies := [], claims := [claimC3], reviews := [], reviewItems := [],
    payments := [] }

def claimsUserC3 : UserRec :=
  { id := 20, role := UserRole.CLAIMS, full_name := "cl", is_active := true }

def adminUserC3 : UserRec :=
  { id := 21, role := UserRole.ADMIN, full_name := "ad", is_active := true }

/-- C3 counterexample: a CLAIMS review with decision NEEDS_MORE_INFO — a
(review_type, decision) pair not in the transition table — does not fail
with an InvalidDecision error: the handler accepts it, returns the created
payload, and silently leaves the claim's status unchanged. -/
theorem C3_counterexample :
    (create_review dbC3 claimsUserC3 1 ReviewType.CLAIMS "more info"
        ReviewDecision.NEEDS_MORE_INFO none 7).resp
      = CreateReviewResult.created 7 1 ReviewType.CLAIMS ReviewDecision.NEEDS_MORE_INFO
    ∧ claim_status (create_review dbC3 claimsUserC3 1 ReviewType.CLAIMS "more info"
        ReviewDecision.NEEDS_MORE_INFO none 7).committed 1
      = some ClaimStatus.UNDER_REVIEW_CLAIMS := by
  decide

/-- C3 (amended): review creation rejects with a 400 error exactly the
review_type and decision strings outside their enums; a valid-enum pair not
in the transition table does not raise InvalidDecision: a CLAIMS review
with NEEDS_MORE_INFO succeeds (created payload) and silently leaves the
claim's status unchanged, and an MD review commits nothing and returns no
payload rather than failing. -/
theorem C3_amended (db : DB) (u : UserRec) (cid rid : Nat) (comments : String)
    (rr : Option String) (c : Claim)
    (hc : find_claim db cid = some c) (hu : u.role = UserRole.ADMIN) :
    (∀ rt, ([ReviewType.CUSTOMER_SERVICE, ReviewType.CLAIMS, ReviewType.MD].contains rt) = false →
        create_review db u cid rt comments ReviewDecision.APPROVED rr rid
          = ⟨db, db, .httpError 400 "Invalid review type"⟩)
    ∧ (∀ d, ([ReviewDecision.APPROVED, ReviewDecision.PARTIALLY_APPROVED,
              ReviewDecision.REJECTED, ReviewDecision.NEEDS_MORE_INFO].contains d) = false →
        create_review db u cid ReviewType.CLAIMS comments d rr rid
          = ⟨db, db, .httpError 400 "Invalid decision"⟩)
    ∧ ((create_review db u cid ReviewType.CLAIMS comments ReviewDecision.NEEDS_MORE_INFO rr rid).resp
          = .created rid cid ReviewType.CLAIMS ReviewDecision.NEEDS_MORE_INFO)
    ∧ (claim_status (create_review db u cid ReviewType.CLAIMS comments
          ReviewDecision.NEEDS_MORE_INFO rr rid).committed cid = claim_status db cid)
    ∧ ((create_review db u cid ReviewType.MD comments ReviewDecision.NEEDS_MORE_INFO rr rid).committed
          = db)
    ∧ ((create_review db u cid ReviewType.MD comments ReviewDecision.NEEDS_MORE_INFO rr rid).resp
          = .fellThrough) := by
  refine ⟨?_, ?_, ?_, ?_, ?_, ?_⟩
  · intro rt h
    simp only [create_review, hc, h]
    try rfl
  · intro d h
    simp only [create_review, hc, h]
    try rfl
  all_goals simp only [create_review, hc, hu]
  all_goals try rfl

/-- Witness for C3_amended at the concrete C3 fixture. -/
theorem C3_amended_witness :
    (create_review dbC3 adminUserC3 1 ReviewType.CLAIMS "c"
        ReviewDecision.NEEDS_MORE_INFO none 8).resp
      = CreateReviewResult.created 8 1 ReviewType.CLAIMS ReviewDecision.NEEDS_MORE_INFO :=
  (C3_amended dbC3 adminUserC3 1 8 "c" none claimC3 (by decide) rfl).2.2.1

/-! Concrete fixture for claim C7. -/

def claimC7 : Claim :=
  { id := 1, reference_number := "CLM-A7", policy_id := 10, hospital_pharmacy := "H",
    reason := "r", requested_amount := 1000, approved_amount := none,
    status := ClaimStatus.UNDER_REVIEW_CLAIMS }

def dbC7 : DB :=
  { users := [], policies := [], claims := [claimC7], reviews := [], reviewItems := [],
    payments := [] }

def adminUserC7 : UserRec :=
  { id := 30, role := UserRole.ADMIN, full_name := "ad", is_active := true }

def phUserC7 : UserRec :=
  { id := 31, role := UserRole.POLICYHOLDER, full_name := "ph", is_active := true }

/-- C7 counterexample: the role ADMIN maps to no review type in the fixed
role-to-type mapping, yet an ADMIN principal creating a CLAIMS review is
not rejected with PermissionDenied — the review is created. -/
theorem C7_counterexample :
    (create_review dbC7 adminUserC7 1 ReviewType.CLAIMS "c" ReviewDecision.APPROVED none 9).resp
      = CreateReviewResult.created 9 1 ReviewType.CLAIMS ReviewDecision.APPROVED := by
  decide

/-- The role gate of `create_review`, characterised propositionally. -/
theorem review_permission_denied_iff (role rt : String) :
    review_permission_denied role rt = true ↔
      (role = UserRole.POLICYHOLDER ∨ role = UserRole.HR ∨ role = UserRole.FINANCE
       ∨ (role = UserRole.CUSTOMER_SERVICE ∧ rt ≠ ReviewType.CUSTOMER_SERVICE)
       ∨ (role = UserRole.CLAIMS ∧ rt ≠ ReviewType.CLAIMS)
       ∨ (role = UserRole.MD ∧ rt ≠ ReviewType.MD)) := by
  simp [review_permission_denied]
  tauto

/-- C7 (amended): for a validly typed review creation on an existing claim,
the handler fails with PermissionDenied exactly when the acting role is
POLICYHOLDER, HR or FINANCE, or is one of the three reviewer roles with a
mismatched review_type; any other role string (such as ADMIN or USER)
passes the gate for every review type. -/
theorem C7_amended (db : DB) (u : UserRec) (cid rid : Nat) (comments rt d : String)
    (rr : Option String) (c : Claim)
    (hc : find_claim db cid = some c)
    (hrt : ([ReviewType.CUSTOMER_SERVICE, ReviewType.CLAIMS, ReviewType.MD].contains rt) = true)
    (hd : ([ReviewDecision.APPROVED, ReviewDecision.PARTIALLY_APPROVED,
            ReviewDecision.REJECTED, ReviewDecision.NEEDS_MORE_INFO].contains d) = true) :
    ((create_review db u cid rt comments d rr rid).resp
        = CreateReviewResult.httpError 403 "Not enough permissions")
      ↔ (u.role = UserRole.POLICYHOLDER ∨ u.role = UserRole.HR ∨ u.role = UserRole.FINANCE
          ∨ (u.role = UserRole.CUSTOMER_SERVICE ∧ rt ≠ ReviewType.CUSTOMER_SERVICE)
          ∨ (u.role = UserRole.CLAIMS ∧ rt ≠ ReviewType.CLAIMS)
          ∨ (u.role = UserRole.MD ∧ rt ≠ ReviewType.MD)) := by
  rw [← review_permission_denied_iff u.role rt]
  simp only [create_review, hc]
  rw [if_neg (show ¬ ((!([ReviewType.CUSTOMER_SERVICE, ReviewType.CLAIMS,
        ReviewType.MD].contains rt)) = true) from by
    simp
    have h3 : rt = "CUSTOMER_SERVICE" ∨ rt = "CLAIMS" ∨ rt = "MD" := by simpa using hrt
    tauto)]
  rw [if_neg (show ¬ ((!([ReviewDecision.APPROVED, ReviewDecision.PARTIALLY_APPROVED,
        ReviewDecision.REJECTED, ReviewDecision.NEEDS_MORE_INFO].contains d)) = true)
        from by
    simp
    have h4 : d = "APPROVED" ∨ d = "PARTIALLY_APPROVED" ∨ d = "REJECTED"
        ∨ d = "NEEDS_MORE_INFO" := by simpa using hd
    tauto)]
  cases hperm : review_permission_denied u.role rt with
  | true => simp [hperm]
  | false =>
    have hrt3 : rt = ReviewType.CUSTOMER_SERVICE ∨ rt = ReviewType.CLAIMS ∨ rt = ReviewType.MD := by
      simpa using hrt
    rcases hrt3 with h | h | h <;> subst h <;> simp

/-- Witness for C7_amended: a POLICYHOLDER attempting a CLAIMS review is
rejected with PermissionDenied, through the amended characterisation. -/
theorem C7_amended_witness :
    (create_review dbC7 phUserC7 1 ReviewType.CLAIMS "c" ReviewDecision.APPROVED none 9).resp
      = CreateReviewResult.httpError 403 "Not enough permissions" :=
  (C7_amended dbC7 phUserC7 1 9 "c" ReviewType.CLAIMS ReviewDecision.APPROVED none claimC7
    (by decide) (by decide) (by decide)).mpr (Or.inl rfl)

/-! Concrete fixture for claim C9. -/

def claimC9 : Claim :=
  { id := 1, reference_number := "CLM-A9", policy_id := 10, hospital_pharmacy := "H",
    reason := "r", requested_amount := 1000, approved_amount := none,
    status := ClaimStatus.SUBMITTED }

def dbC9 : DB :=
  { users := [], policies := [], claims := [claimC9], reviews := [], reviewItems := [],
    payments := [] }

def csUserC9 : UserRec :=
  { id := 40, role := UserRole.CUSTOMER_SERVICE, full_name := "cs", is_active := true }

def mdUserC9 : UserRec :=
  { id := 41, role := UserRole.MD, full_name := "md", is_active := true }

def claimsUserC9 : UserRec :=
  { id := 42, role := UserRole.CLAIMS, full_name := "cl", is_active := true }

/-- C9: for a permitted reviewer on an existing claim and any valid
decision, the handler for a CUSTOMER_SERVICE or MD review performs no
commit (the persisted database is unchanged) and produces no success
response body (Python returns None); only the CLAIMS branch commits — the
new review row is persisted — and returns the documented payload. -/
theorem C9_commit_shape (db : DB) (u v w : UserRec) (cid rid : Nat) (comments d : String)
    (rr : Option String) (c : Claim)
    (hc : find_claim db cid = some c)
    (hu : u.role = UserRole.CUSTOMER_SERVICE) (hv : v.role = UserRole.MD)
    (hw : w.role = UserRole.CLAIMS)
    (hd : ([ReviewDecision.APPROVED, ReviewDecision.PARTIALLY_APPROVED,
            ReviewDecision.REJECTED, ReviewDecision.NEEDS_MORE_INFO].contains d) = true) :
    ((create_review db u cid ReviewType.CUSTOMER_SERVICE comments d rr rid).committed = db
     ∧ (create_review db u cid ReviewType.CUSTOMER_SERVICE comments d rr rid).resp
        = CreateReviewResult.fellThrough)
    ∧ ((create_review db v cid ReviewType.MD comments d rr rid).committed = db
     ∧ (create_review db v cid ReviewType.MD comments d rr rid).resp
        = CreateReviewResult.fellThrough)
    ∧ ((create_review db w cid ReviewType.CLAIMS comments d rr rid).resp
        = CreateReviewResult.created rid cid ReviewType.CLAIMS d)
    ∧ ((create_review db w cid ReviewType.CLAIMS comments d rr rid).committed.reviews
        = db.reviews ++ [{ id := rid, claim_id := cid, reviewer_id := w.id,
                           review_type := ReviewType.CLAIMS, comments := comments,
                           decision := d, rejection_reason := rr }]) := by
  have hd4 : d = "APPROVED" ∨ d = "PARTIALLY_APPROVED" ∨ d = "REJECTED"
      ∨ d = "NEEDS_MORE_INFO" := by simpa using hd
  rcases hd4 with h | h | h | h <;> subst h <;>
    refine ⟨⟨?_, ?_⟩, ⟨?_, ?_⟩, ?_, ?_⟩ <;> simp only [create_review, hc, hu, hv, hw] <;> rfl

/-- Witness for C9_commit_shape at the concrete C9 fixture. -/
theorem C9_commit_shape_witness :
    (create_review dbC9 claimsUserC9 1 ReviewType.CLAIMS "c"
        ReviewDecision.APPROVED none 5).resp
      = CreateReviewResult.created 5 1 ReviewType.CLAIMS ReviewDecision.APPROVED :=
  (C9_commit_shape dbC9 csUserC9 mdUserC9 claimsUserC9 1 5 "c" ReviewDecision.APPROVED none
    claimC9 (by decide) rfl rfl rfl (by decide)).2.2.1

/-! Concrete fixture for claim C4. -/

def claimC4 : Claim :=
  { id := 1, reference_number := "CLM-A4", policy_id := 10, hospital_pharmacy := "H",
    reason := "r", requested_amount := 1000, approved_amount := some 500,
    status := ClaimStatus.APPROVED }

def dbC4 : DB :=
  { users := [], policies := [], claims := [claimC4], reviews := [], reviewItems := [],
    payments := [] }

def finUserC4 : UserRec :=
  { id := 50, role := UserRole.FINANCE, full_name := "fin", is_active := true }

/-- C4: for an existing claim, payment creation succeeds only when the
claim's status is APPROVED or PARTIALLY_APPROVED — in which case the
persisted status immediately becomes PENDING_PAYMENT and the payment row
is persisted — while in any other status the request fails with the 400
Inconsistent State error and the database (hence the claim's status) is
unchanged. -/
theorem C4_payment_gate (db : DB) (u : UserRec) (cid pid : Nat) (inv : String)
    (amt : ℚ) (c : Claim) (hc : find_claim db cid = some c) :
    (([ClaimStatus.APPROVED, ClaimStatus.PARTIALLY_APPROVED].contains c.status) = true →
       claim_status (create_payment db u cid inv amt pid).1 cid
           = some ClaimStatus.PENDING_PAYMENT
       ∧ (create_payment db u cid inv amt pid).1.payments
           = db.payments ++ [{ id := pid, claim_id := cid, invoice_number := inv,
                               payment_amount := amt,
                               payment_status := PaymentStatus.SCHEDULED,
                               processed_by_id := u.id }])
    ∧ (([ClaimStatus.APPROVED, ClaimStatus.PARTIALLY_APPROVED].contains c.status) = false →
       create_payment db u cid inv amt pid
         = (db, PaymentResult.httpError 400
             "Claim must be approved or partially approved to create payment")) := by
  constructor
  · intro h
    have hfst : (create_payment db u cid inv amt pid).1
        = set_claim_status { db with payments := db.payments ++
              [{ id := pid, claim_id := cid, invoice_number := inv, payment_amount := amt,
                 payment_status := PaymentStatus.SCHEDULED, processed_by_id := u.id }] }
            cid ClaimStatus.PENDING_PAYMENT := by
      simp only [create_payment, hc]
      rw [if_neg (show ¬ ((!([ClaimStatus.APPROVED,
            ClaimStatus.PARTIALLY_APPROVED].contains c.status)) = true) from by
        simp
        have h2 : c.status = "APPROVED" ∨ c.status = "PARTIALLY_APPROVED" := by simpa using h
        tauto)]
      split
      · rfl
      · split <;> rfl
    refine ⟨?_, ?_⟩
    · rw [hfst, claim_status_set_status, if_pos rfl]
      have hmid : ∀ (P : List Payment),
          claim_status { db with payments := P } cid = some c.status := by
        intro P
        simp only [claim_status, find_claim]
        rw [show List.find? (fun x => x.id == cid)
              ({ db with payments := P } : DB).claims = some c from hc]
        rfl
      rw [hmid]
      rfl
    · rw [hfst]
      rfl
  · intro h
    simp only [create_payment, hc, h]
    rfl

/-- Witness for C4_payment_gate at the concrete C4 fixture. -/
theorem C4_payment_gate_witness :
    claim_status (create_payment dbC4 finUserC4 1 "INV-1" 500 70).1 1
      = some ClaimStatus.PENDING_PAYMENT :=
  ((C4_payment_gate dbC4 finUserC4 1 70 "INV-1" 500 claimC4 (by decide)).1 (by decide)).1

/-- Changing only the payments table does not change any claim lookup. -/
theorem claim_status_payments_irrel (x : DB) (P : List Payment) (cid : Nat) :
    claim_status { x with payments := P } cid = claim_status x cid := rfl

/-- Closed form of `update_payment` when the status form field is
PROCESSED and every looked-up row exists: the payment row is rewritten to
PROCESSED, the owning claim is moved to PAID, and the handler reports
success. -/
theorem update_payment_processed_eq (db : DB) (u : UserRec) (pid : Nat) (p : Payment)
    (claim : Claim) (pol : Policy) (ph : UserRec)
    (hrole : u.role = UserRole.FINANCE)
    (hp : find_payment db pid = some p)
    (hclaim : find_claim db p.claim_id = some claim)
    (hpol : find_policy db claim.policy_id = some pol)
    (hph : find_user db pol.policyholder_id = some ph) :
    update_payment db u pid none none (some PaymentStatus.PROCESSED)
      = (set_claim_status
           { db with payments := db.payments.map (fun q =>
               if q.id == pid then { p with payment_status := PaymentStatus.PROCESSED } else q) }
           p.claim_id ClaimStatus.PAID,
         UpdatePaymentResult.updated pid PaymentStatus.PROCESSED) := by
  simp only [update_payment, hp]
  rw [if_neg (show ¬ ((u.role != UserRole.FINANCE) = true) from by simp [hrole])]
  simp only [find_claim, find_policy, find_user] at hclaim hpol hph
  simp only [find_claim, find_policy, find_user, set_claim_status, hclaim, hpol, hph]
  rfl

/-- C5: with the payment, its claim, the claim's policy and the
policyholder all present and a FINANCE principal, setting the payment's
status to PROCESSED succeeds and leaves the owning claim's persisted
status PAID; repeating the same update on the resulting state succeeds
again and leaves the status PAID — the transition is idempotent and raises
no error. -/
theorem C5_processed_paid (db : DB) (u : UserRec) (pid : Nat) (p : Payment)
    (claim : Claim) (pol : Policy) (ph : UserRec)
    (hrole : u.role = UserRole.FINANCE)
    (hp : find_payment db pid = some p)
    (hclaim : find_claim db p.claim_id = some claim)
    (hpol : find_policy db claim.policy_id = some pol)
    (hph : find_user db pol.policyholder_id = some ph) :
    ((update_payment db u pid none none (some PaymentStatus.PROCESSED)).2
        = UpdatePaymentResult.updated pid PaymentStatus.PROCESSED)
    ∧ (claim_status (update_payment db u pid none none (some PaymentStatus.PROCESSED)).1 p.claim_id
        = some ClaimStatus.PAID)
    ∧ ((update_payment (update_payment db u pid none none (some PaymentStatus.PROCESSED)).1
          u pid none none (some PaymentStatus.PROCESSED)).2
        = UpdatePaymentResult.updated pid PaymentStatus.PROCESSED)
    ∧ (claim_status (update_payment (update_payment db u pid none none
          (some PaymentStatus.PROCESSED)).1 u pid none none (some PaymentStatus.PROCESSED)).1
          p.claim_id
        = some ClaimStatus.PAID) := by
  have hpid : p.id = pid := by
    have := List.find?_some hp
    simpa using this
  have h1 := update_payment_processed_eq db u pid p claim pol ph hrole hp hclaim hpol hph
  have hclaim_db1 : ∀ (P : List Payment),
      claim_status { db with payments := P } p.claim_id = some claim.status := by
    intro P
    simp only [claim_status, find_claim]
    rw [show List.find? (fun x => x.id == p.claim_id)
          ({ db with payments := P } : DB).claims = some claim from hclaim]
    rfl
  have hstatus1 : claim_status (update_payment db u pid none none
      (some PaymentStatus.PROCESSED)).1 p.claim_id = some ClaimStatus.PAID := by
    rw [h1]
    rw [claim_status_set_status, if_pos rfl, hclaim_db1]
    rfl
  -- row lookups in the committed state of the first run
  have hp2 : find_payment (update_payment db u pid none none
      (some PaymentStatus.PROCESSED)).1 pid
      = some { p with payment_status := PaymentStatus.PROCESSED } := by
    rw [h1]
    show (db.payments.map (fun q => if q.id == pid then
        { p with payment_status := PaymentStatus.PROCESSED } else q)).find?
        (fun q => q.id == pid) = _
    rw [show (fun q : Payment => if q.id == pid then
          { p with payment_status := PaymentStatus.PROCESSED } else q)
        = (fun q : Payment => if (fun x : Payment => x.id) q == pid then
            (fun _ : Payment => { p with payment_status := PaymentStatus.PROCESSED }) q else q)
        from rfl]
    rw [find_update_by_key (fun x : Payment => x.id) db.payments pid pid
          (fun _ => { p with payment_status := PaymentStatus.PROCESSED })
          (fun a ha => by rw [ha]; exact hpid)]
    rw [if_pos rfl]
    rw [show List.find? (fun a => (fun x : Payment => x.id) a == pid) db.payments = some p from hp]
    rfl
  have hclaim2 : find_claim (update_payment db u pid none none
      (some PaymentStatus.PROCESSED)).1 p.claim_id
      = some { claim with status := ClaimStatus.PAID } := by
    rw [h1]
    show (db.claims.map (fun c => if c.id == p.claim_id then
        { c with status := ClaimStatus.PAID } else c)).find? (fun c => c.id == p.claim_id) = _
    rw [show (fun c : Claim => if c.id == p.claim_id then
          { c with status := ClaimStatus.PAID } else c)
        = (fun c : Claim => if (fun x : Claim => x.id) c == p.claim_id then
            (fun x : Claim => { x with status := ClaimStatus.PAID }) c else c) from rfl]
    rw [find_update_by_key (fun x : Claim => x.id) db.claims p.claim_id p.claim_id
          (fun x => { x with status := ClaimStatus.PAID }) (fun _ _ => rfl)]
    rw [if_pos rfl]
    rw [show List.find? (fun a => (fun x : Claim => x.id) a == p.claim_id) db.claims
          = some claim from hclaim]
    rfl
  have hpol2 : find_policy (update_payment db u pid none none
      (some PaymentStatus.PROCESSED)).1 claim.policy_id = some pol := by
    rw [h1]
    exact hpol
  have hph2 : find_user (update_payment db u pid none none
      (some PaymentStatus.PROCESSED)).1 pol.policyholder_id = some ph := by
    rw [h1]
    exact hph
  have h2 := update_payment_processed_eq
    (update_payment db u pid none none (some PaymentStatus.PROCESSED)).1 u pid
    { p with payment_status := PaymentStatus.PROCESSED }
    { claim with status := ClaimStatus.PAID } pol ph hrole hp2 hclaim2 hpol2 hph2
  refine ⟨by rw [h1], hstatus1, by rw [h2], ?_⟩
  rw [h2]
  show claim_status (set_claim_status _ p.claim_id ClaimStatus.PAID) p.claim_id = _
  rw [claim_status_set_status, if_pos rfl]
  rw [claim_status_payments_irrel]
  simp only [claim_status]
  rw [hclaim2]
  rfl

/-! Concrete fixture for claim C5. -/

def phUserC5 : UserRec :=
  { id := 2, role := UserRole.POLICYHOLDER, full_name := "ph", is_active := true }

def finUserC5 : UserRec :=
  { id := 3, role := UserRole.FINANCE, full_name := "fin", is_active := true }

def policyC5 : Policy :=
  { id := 10, member_number := "M-5", policyholder_id := 2, employer_id := 20 }

def claimC5 : Claim :=
  { id := 1, reference_number := "CLM-A5", policy_id := 10, hospital_pharmacy := "H",
    reason := "r", requested_amount := 1000, approved_amount := some 500,
    status := ClaimStatus.PENDING_PAYMENT }

def paymentC5 : Payment :=
  { id := 1, claim_id := 1, invoice_number := "INV-5", payment_amount := 500,
    payment_status := PaymentStatus.SCHEDULED, processed_by_id := 3 }

def dbC5 : DB :=
  { users := [phUserC5, finUserC5], policies := [policyC5], claims := [claimC5],
    reviews := [], reviewItems := [], payments := [paymentC5] }

/-- Witness for C5_processed_paid at the concrete C5 fixture. -/
theorem C5_processed_paid_witness :
    claim_status (update_payment dbC5 finUserC5 1 none none
        (some PaymentStatus.PROCESSED)).1 1 = some ClaimStatus.PAID :=
  (C5_processed_paid dbC5 finUserC5 1 paymentC5 claimC5 policyC5 phUserC5
    rfl (by decide) (by decide) (by decide) (by decide)).2.1

/-! Concrete fixture for claim C8. -/

def claimC8 : Claim :=
  { id := 1, reference_number := "CLM-A8", policy_id := 10, hospital_pharmacy := "H",
    reason := "r", requested_amount := 1000, approved_amount := some 500,
    status := ClaimStatus.PAID }

def dbC8 : DB :=
  { users := [], policies := [], claims := [claimC8], reviews := [], reviewItems := [],
    payments := [] }

def claimsUserC8 : UserRec :=
  { id := 60, role := UserRole.CLAIMS, full_name := "cl", is_active := true }

/-- C8 counterexample: review creation applies no status precondition, so
a CLAIMS review with decision REJECTED on a claim that is already PAID
commits the claim back to REJECTED — an earlier status — contradicting the
one-way payment-stage transition. -/
theorem C8_counterexample :
    claim_status dbC8 1 = some ClaimStatus.PAID
    ∧ claim_status (create_review dbC8 claimsUserC8 1 ReviewType.CLAIMS "late"
        ReviewDecision.REJECTED none 5).committed 1 = some ClaimStatus.REJECTED := by
  decide

/-- C8 (amended): the payment-stage operations themselves never move a
claim whose status is PENDING_PAYMENT or PAID back to an earlier status:
create_payment refuses such claims, update_payment only ever writes PAID,
and update_claim_status never commits (its commit is not awaited).  Review
creation, which applies no status precondition, is the exception exhibited
by the counterexample. -/
theorem C8_amended (db : DB) (cid : Nat)
    (h : claim_status db cid = some ClaimStatus.PENDING_PAYMENT
         ∨ claim_status db cid = some ClaimStatus.PAID) :
    (∀ (u : UserRec) (cid2 pid : Nat) (inv : String) (amt : ℚ),
        claim_status (create_payment db u cid2 inv amt pid).1 cid
            = some ClaimStatus.PENDING_PAYMENT
        ∨ claim_status (create_payment db u cid2 inv amt pid).1 cid = some ClaimStatus.PAID)
    ∧ (∀ (u : UserRec) (pid : Nat) (oinv : Option String) (oamt : Option ℚ)
          (ops : Option String),
        claim_status (update_payment db u pid oinv oamt ops).1 cid
            = some ClaimStatus.PENDING_PAYMENT
        ∨ claim_status (update_payment db u pid oinv oamt ops).1 cid = some ClaimStatus.PAID)
    ∧ (∀ (cid2 : Nat) (st : String), (update_claim_status db cid2 st).committed = db) := by
  have hdb1 : ∀ (P : List Payment),
      claim_status { db with payments := P } cid = some ClaimStatus.PENDING_PAYMENT
      ∨ claim_status { db with payments := P } cid = some ClaimStatus.PAID := by
    intro P
    rw [claim_status_payments_irrel]
    exact h
  have hdb2 : ∀ (P : List Payment) (cid2 : Nat) (s : String),
      (s = ClaimStatus.PENDING_PAYMENT ∨ s = ClaimStatus.PAID) →
      (claim_status (set_claim_status { db with payments := P } cid2 s) cid
          = some ClaimStatus.PENDING_PAYMENT
       ∨ claim_status (set_claim_status { db with payments := P } cid2 s) cid
          = some ClaimStatus.PAID) := by
    intro P cid2 s hs
    rw [claim_status_set_status]
    by_cases hcc : cid2 = cid
    · rw [if_pos hcc, claim_status_payments_irrel]
      rcases h with h' | h' <;> rw [h'] <;>
        rcases hs with hs' | hs' <;> subst hs' <;> simp
    · rw [if_neg hcc, claim_status_payments_irrel]
      exact h
  refine ⟨?_, ?_, ?_⟩
  · intro u cid2 pid inv amt
    unfold create_payment
    dsimp only
    repeat' split
    all_goals
      first
        | exact h
        | exact hdb1 _
        | exact hdb2 _ _ _ (Or.inl rfl)
  · intro u pid oinv oamt ops
    unfold update_payment
    dsimp only
    repeat' split
    all_goals
      first
        | exact h
        | exact hdb1 _
        | exact hdb2 _ _ _ (Or.inl rfl)
        | exact hdb2 _ _ _ (Or.inr rfl)
  · intro cid2 st
    unfold update_claim_status
    dsimp only
    repeat' split
    all_goals rfl

/-- Witness for C8_amended at the concrete C8 fixture (a PAID claim). -/
theorem C8_amended_witness :
    (update_claim_status dbC8 1 ClaimStatus.SUBMITTED).committed = dbC8 :=
  (C8_amended dbC8 1 (Or.inr (by decide))).2.2 1 ClaimStatus.SUBMITTED

/-- C10: updating a review's comments, decision or rejection_reason
changes only those fields of that review: the claims, review-items and
payments tables are untouched (in particular the owning claim's status and
approved_amount are unchanged — the status transition is never re-applied)
and every review keeps its id, claim_id, reviewer_id and review_type
(review ids are primary keys, hence assumed distinct). -/
theorem C10_update_review_frame (db : DB) (rid : Nat)
    (comments decision rejection_reason : Option String)
    (hnd : (db.reviews.map (fun r => r.id)).Nodup) :
    ((update_review db rid comments decision rejection_reason).1.claims = db.claims)
    ∧ ((update_review db rid comments decision rejection_reason).1.reviewItems = db.reviewItems)
    ∧ ((update_review db rid comments decision rejection_reason).1.payments = db.payments)
    ∧ ((update_review db rid comments decision rejection_reason).1.reviews.map
          (fun r => (r.id, r.claim_id, r.reviewer_id, r.review_type))
        = db.reviews.map (fun r => (r.id, r.claim_id, r.reviewer_id, r.review_type))) := by
  cases hfr : find_review db rid with
  | none =>
    simp [update_review, hfr]
  | some r0 =>
    have hfr' : db.reviews.find? (fun r => r.id == rid) = some r0 := hfr
    have hr0mem : r0 ∈ db.reviews := List.mem_of_find?_eq_some hfr'
    have hr0id : r0.id = rid := by simpa using List.find?_some hfr'
    by_cases hval : (truthy decision
        && !([ReviewDecision.APPROVED, ReviewDecision.PARTIALLY_APPROVED,
              ReviewDecision.REJECTED,
              ReviewDecision.NEEDS_MORE_INFO].contains (decision.getD ""))) = true
    · simp only [update_review, hfr]
      rw [if_pos hval]
      simp
    · simp only [update_review, hfr]
      rw [if_neg hval]
      refine ⟨rfl, rfl, rfl, ?_⟩
      dsimp only
      rw [List.map_map]
      apply List.map_congr_left
      intro r hr
      by_cases hid : (r.id == rid) = true
      · have hrr0 : r = r0 := by
          have h1 : r.id = rid := by simpa using hid
          exact List.inj_on_of_nodup_map hnd hr hr0mem (by rw [h1, hr0id])
        subst hrr0
        simp [Function.comp, hid]
      · simp [Function.comp, hid]

/-! Concrete fixture for the C10 witness. -/

def reviewC10 : Review :=
  { id := 1, claim_id := 1, reviewer_id := 11, review_type := ReviewType.CUSTOMER_SERVICE,
    comments := "c", decision := ReviewDecision.APPROVED, rejection_reason := none }

def claimC10 : Claim :=
  { id := 1, reference_number := "CLM-A10", policy_id := 10, hospital_pharmacy := "H",
    reason := "r", requested_amount := 1000, approved_amount := some 100,
    status := ClaimStatus.UNDER_REVIEW_CLAIMS }

def dbC10 : DB :=
  { users := [], policies := [], claims := [claimC10], reviews := [reviewC10],
    reviewItems := [], payments := [] }

/-- Witness for C10_update_review_frame at the concrete C10 fixture. -/
theorem C10_update_review_frame_witness :
    (update_review dbC10 1 (some "updated") (some ReviewDecision.PARTIALLY_APPROVED)
        none).1.claims = dbC10.claims :=
  (C10_update_review_frame dbC10 1 (some "updated")
    (some ReviewDecision.PARTIALLY_APPROVED) none (by decide)).1

/-! Concrete fixture for claim C6: two policyholders, each with a policy
and a claim of their own. -/

def userC6a : UserRec :=
  { id := 1, role := UserRole.POLICYHOLDER, full_name := "ph-a", is_active := true }

def userC6b : UserRec :=
  { id := 2, role := UserRole.POLICYHOLDER, full_name := "ph-b", is_active := true }

def policyC6a : Policy :=
  { id := 10, member_number := "M-6a", policyholder_id := 1, employer_id := 20 }

def policyC6b : Policy :=
  { id := 11, member_number := "M-6b", policyholder_id := 2, employer_id := 20 }

def claimC6a : Claim :=
  { id := 1, reference_number := "CLM-A6a", policy_id := 10, hospital_pharmacy := "H",
    reason := "r", requested_amount := 1000, approved_amount := none,
    status := ClaimStatus.SUBMITTED }

def claimC6b : Claim :=
  { id := 2, reference_number := "CLM-A6b", policy_id := 11, hospital_pharmacy := "H",
    reason := "r", requested_amount := 800, approved_amount := none,
    status := ClaimStatus.SUBMITTED }

def dbC6 : DB :=
  { users := [userC6a, userC6b], policies := [policyC6a, policyC6b],
    claims := [claimC6a, claimC6b], reviews := [], reviewItems := [], payments := [] }

/-- C6 (evaluation at the failing input): the claims-list handler performs
no role or ownership filtering — it never loads the requesting principal,
so a POLICYHOLDER principal (user 1) receives claim 2 as well, although
claim 2 is reachable only through policy 11 whose policyholder is user 2,
contradicting the ownership-scoping claim. -/
theorem C6_code_evaluation :
    ((get_claims dbC6 none 0 100).map (fun c => c.id) = [1, 2])
    ∧ ((find_claim dbC6 2).map (fun c => c.policy_id) = some 11)
    ∧ ((find_policy dbC6 11).map (fun p => p.policyholder_id) = some 2)
    ∧ (userC6a.role = UserRole.POLICYHOLDER ∧ userC6a.id = 1) := by
  decide

end Mediclaim
